import Mathlib

/-!
Verification of the libchafa-rs capability-negotiation and cell-rendering
contract.  The repository is a thin Rust wrapper around the chafa C library:
the wrapper code under src/ is embedded directly, and the C entry points it
calls (whose sources are not in the repository) are modelled from the
specification and from the doc comments the wrapper carries for them.
-/

/- ## Symbol selector language (symbol_map.rs) -/

/-- Modelled from the spec: the closed taxonomy of selector tag names accepted
by the selector parser of `chafa_symbol_map_apply_selectors`, as listed in the
doc comment of `SymbolMap::apply_selectors`. -/
inductive SymbolTag where
  | all | none | space | solid | stipple | block | border | diagonal
  | dot | quad | half | hhalf | vhalf | braille | technical | geometric
  | ascii | extra
  deriving DecidableEq, Repr

/-- Modelled from the spec: lookup of a selector term against the taxonomy.
Tag names are case-sensitive keywords. -/
def tagOfName : String → Option SymbolTag
  | "all" => some .all
  | "none" => some .none
  | "space" => some .space
  | "solid" => some .solid
  | "stipple" => some .stipple
  | "block" => some .block
  | "border" => some .border
  | "diagonal" => some .diagonal
  | "dot" => some .dot
  | "quad" => some .quad
  | "half" => some .half
  | "hhalf" => some .hhalf
  | "vhalf" => some .vhalf
  | "braille" => some .braille
  | "technical" => some .technical
  | "geometric" => some .geometric
  | "ascii" => some .ascii
  | "extra" => some .extra
  | _ => Option.none

/-- Modelled from the spec: one mutation recorded in a symbol map, which the
data model describes as an ordered accumulation of add and remove operations
(a clear resets the accumulation). -/
inductive MapOp where
  | add (t : SymbolTag)
  | remove (t : SymbolTag)
  deriving DecidableEq, Repr

/-- Modelled from the spec: the observable selector state of a ChafaSymbolMap,
the ordered accumulation of applied operations. -/
structure SymbolMap where
  ops : List MapOp
  deriving DecidableEq, Repr

/-- One flushed selector term: its sign (true for add) and its name. -/
def flushTerm (cur : List Char) (sign : Bool) : List (Bool × String) :=
  if cur.isEmpty then [] else [(sign, String.mk cur)]

/-- Modelled from the spec: split a selector expression into signed terms.
Terms are separated by any of the characters `+`, `-` and `,`; an explicit
`+` or `-` sets the sign for the terms that follow, while `,` keeps the sign
of the most recent explicit sign token (defaulting to add). -/
def splitTerms : List Char → List Char → Bool → List (Bool × String) →
    List (Bool × String)
  | [], cur, sign, acc => acc ++ flushTerm cur sign
  | c :: rest, cur, sign, acc =>
    if c = '+' then splitTerms rest [] true (acc ++ flushTerm cur sign)
    else if c = '-' then splitTerms rest [] false (acc ++ flushTerm cur sign)
    else if c = ',' then splitTerms rest [] sign (acc ++ flushTerm cur sign)
    else splitTerms rest (cur ++ [c]) sign acc

/-- Modelled from the spec: resolve every parsed term name against the
taxonomy; an unknown tag name fails the whole parse with a human-readable
message. -/
def resolveTerms : List (Bool × String) → Except String (List (Bool × SymbolTag))
  | [] => Except.ok []
  | (sign, nm) :: rest =>
    match tagOfName nm with
    | Option.none => Except.error ("unrecognized tag name " ++ nm)
    | some t =>
      match resolveTerms rest with
      | Except.error e => Except.error e
      | Except.ok ts => Except.ok ((sign, t) :: ts)

/-- Modelled from the spec: parse a whole selector expression into a pending
operation list before anything is applied.  Returns whether the map must be
cleared first (the expression starts with neither `+` nor `-`) together with
the signed tag list. -/
def parseSelectors (s : String) : Except String (Bool × List (Bool × SymbolTag)) :=
  let cs := s.data
  let clearFirst : Bool :=
    match cs with
    | [] => true
    | c :: _ => ¬ (c = '+' ∨ c = '-')
  match resolveTerms (splitTerms cs [] true []) with
  | Except.error e => Except.error e
  | Except.ok ts => Except.ok (clearFirst, ts)

/-- Modelled from the spec: `chafa_symbol_map_apply_selectors` parses the whole
expression into a pending operation list first and only then applies it, so a
parse failure leaves the map untouched. -/
def chafa_symbol_map_apply_selectors (m : SymbolMap) (s : String) :
    SymbolMap × Except String Unit :=
  match parseSelectors s with
  | Except.error e => (m, Except.error e)
  | Except.ok (clearFirst, ts) =>
    (⟨(if clearFirst then [] else m.ops) ++
        ts.map (fun p => if p.1 then MapOp.add p.2 else MapOp.remove p.2)⟩,
      Except.ok ())

/-- Embeds `SymbolMap::apply_selectors` from src/src/symbol_map.rs: calls the
C entry point and, when a GError comes back, wraps its message in the fixed
prefix before freeing the error. -/
def SymbolMap.apply_selectors (m : SymbolMap) (selectors : String) :
    SymbolMap × Except String Unit :=
  match chafa_symbol_map_apply_selectors m selectors with
  | (m2, Except.error msg) =>
    (m2, Except.error ("Chafa -> Failed to apply selectors: " ++ msg))
  | (m2, Except.ok ()) => (m2, Except.ok ())

/- ## TermInfo (term/info.rs) -/

/-- Embeds the constant CHAFA_TERM_SEQ_LENGTH_MAX from src/src/term/info.rs. -/
def CHAFA_TERM_SEQ_LENGTH_MAX : Nat := 96

/-- Embeds the constant CHAFA_TERM_SEQ_ARGS_MAX from src/src/term/info.rs. -/
def CHAFA_TERM_SEQ_ARGS_MAX : Nat := 24

/-- Observable state of a ChafaTermInfo, generic over the closed enumeration
of sequence kinds (the concrete enumeration is generated at build time and is
not part of the sources).  Each kind holds an optional control-sequence
template and an inheritance flag; the record also carries the optional name
set by `set_name`. -/
structure TermInfo (σ : Type) where
  seq : σ → Option String
  inherit : σ → Bool
  name : Option String

/-- Embeds the merge rules stated for `Info::chain` in src/src/term/info.rs:
for sequences marked as inherited in inner, if either the inner or the outer
sequence is NULL, pick the outer sequence, otherwise pick the inner sequence;
for sequences not marked as inherited, always use the inner sequence. -/
def chafa_term_info_chain {σ : Type} (outer inner : TermInfo σ) : TermInfo σ :=
  { seq := fun k =>
      if inner.inherit k then
        if inner.seq k = Option.none ∨ outer.seq k = Option.none then
          outer.seq k
        else inner.seq k
      else inner.seq k,
    inherit := inner.inherit,
    name := match inner.name with
      | Option.none => outer.name
      | some n => some n }

/-- One parsed element of a control-sequence template: a literal character or
a positional argument placeholder. -/
inductive TemplateItem where
  | lit (c : Char)
  | arg (n : Nat)
  deriving DecidableEq, Repr

/-- Modelled from the spec: parse a control-sequence template.  Argument
indexes are preceded by a percentage character and start at 1 (%1, %2, ...);
an index may have one or two digits, must be nonzero and must not exceed
CHAFA_TERM_SEQ_ARGS_MAX; a percentage character not followed by a valid index
is a parse failure. -/
def parseTemplate : List Char → Except String (List TemplateItem)
  | [] => Except.ok []
  | '%' :: c1 :: c2 :: rest =>
    if c1.isDigit ∧ c2.isDigit then
      let n := (c1.toNat - 48) * 10 + (c2.toNat - 48)
      if n = 0 ∨ n > CHAFA_TERM_SEQ_ARGS_MAX then
        Except.error "argument index out of range"
      else
        match parseTemplate rest with
        | Except.error e => Except.error e
        | Except.ok ts => Except.ok (TemplateItem.arg n :: ts)
    else if c1.isDigit then
      let n := c1.toNat - 48
      if n = 0 then Except.error "argument index out of range"
      else
        match parseTemplate (c2 :: rest) with
        | Except.error e => Except.error e
        | Except.ok ts => Except.ok (TemplateItem.arg n :: ts)
    else Except.error "malformed argument placeholder"
  | ['%', c1] =>
    if c1.isDigit then
      let n := c1.toNat - 48
      if n = 0 then Except.error "argument index out of range"
      else Except.ok [TemplateItem.arg n]
    else Except.error "malformed argument placeholder"
  | ['%'] => Except.error "malformed argument placeholder"
  | c :: rest =>
    match parseTemplate rest with
    | Except.error e => Except.error e
    | Except.ok ts => Except.ok (TemplateItem.lit c :: ts)

/-- Modelled from the spec: the worst-case expanded byte length of a parsed
template, each literal counted at its UTF-8 size and each argument at its
maximum digit width (up to four digits per argument). -/
def worstCaseLen (items : List TemplateItem) : Nat :=
  items.foldr (fun it acc =>
    (match it with
     | TemplateItem.lit c => c.utf8Size
     | TemplateItem.arg _ => 4) + acc) 0

/-- Modelled from the spec: `chafa_term_info_set_seq`.  Passing NULL clears
the stored sequence.  Otherwise the template is parsed and its worst-case
expansion checked against the byte ceiling at assignment time; on a parse
failure or an over-long template the stored sequence is left untouched and an
error message is produced. -/
def chafa_term_info_set_seq {σ : Type} [DecidableEq σ] (info : TermInfo σ)
    (k : σ) (tmpl : Option String) : TermInfo σ × Except String Unit :=
  match tmpl with
  | Option.none =>
    ({ info with seq := fun j => if j = k then Option.none else info.seq j },
      Except.ok ())
  | some s =>
    match parseTemplate s.data with
    | Except.error e => (info, Except.error e)
    | Except.ok items =>
      if worstCaseLen items > CHAFA_TERM_SEQ_LENGTH_MAX then
        (info, Except.error "sequence too long")
      else
        ({ info with seq := fun j => if j = k then some s else info.seq j },
          Except.ok ())

/-- Modelled from Rust: `CString::new` fails exactly when the input contains
an interior NUL byte; on success it yields the bytes with a terminator. -/
def cstring_new (s : String) : Option (List Char) :=
  if s.data.any (fun c => c.toNat = 0) then Option.none
  else some (s.data ++ [Char.ofNat 0])

/-- Embeds `Info::set_seq` from src/src/term/info.rs: the template string is
first converted with CString::new followed by expect, which panics when the
string holds an interior NUL byte (result Option.none); otherwise the C entry
point runs and a GError is wrapped in the fixed message prefix. -/
def Info.set_seq {σ : Type} [DecidableEq σ] (info : TermInfo σ) (k : σ)
    (seq_str : Option String) : Option (TermInfo σ × Except String Unit) :=
  match seq_str with
  | Option.none => some (chafa_term_info_set_seq info k Option.none)
  | some s =>
    match cstring_new s with
    | Option.none => Option.none
    | some _ =>
      match chafa_term_info_set_seq info k (some s) with
      | (i2, Except.error msg) =>
        some (i2, Except.error ("Chafa -> Failed to apply selectors: " ++ msg))
      | (i2, Except.ok ()) => some (i2, Except.ok ())

/-- Embeds `Info::set_name` from src/src/term/info.rs: the name is converted
with CString::new followed by expect, which panics when the string holds an
interior NUL byte (result Option.none); otherwise the C entry point stores
the name. -/
def Info.set_name {σ : Type} (info : TermInfo σ) (name : String) :
    Option (TermInfo σ) :=
  match cstring_new name with
  | Option.none => Option.none
  | some _ => some { info with name := some name }

/- ## Canvas geometry (misc.rs) -/

/-- Exact rational multiplication written through mkRat, so that it reduces
in the kernel. -/
def ratMul (a b : Rat) : Rat := mkRat (a.num * b.num) (a.den * b.den)

/-- Exact rational division written through mkRat. -/
def ratDiv (a b : Rat) : Rat :=
  if 0 ≤ b.num then mkRat (a.num * Int.ofNat b.den) (a.den * b.num.toNat)
  else mkRat (-(a.num * Int.ofNat b.den)) (a.den * (-b.num).toNat)

/-- Exact rational addition written through mkRat. -/
def ratAdd (a b : Rat) : Rat :=
  mkRat (a.num * b.den + b.num * a.den) (a.den * b.den)

/-- Comparison of two rationals by cross multiplication (denominators are
positive). -/
def ratLe (a b : Rat) : Prop := a.num * (b.den : Int) ≤ b.num * (a.den : Int)

instance (a b : Rat) : Decidable (ratLe a b) := by
  unfold ratLe
  infer_instance

/-- Floor of a rational number as an integer. -/
def ratFloor (q : Rat) : Int := Int.fdiv q.num (Int.ofNat q.den)

/-- The rational number with integer value n. -/
def intToRat (n : Int) : Rat := mkRat n 1

/-- The smaller of two rationals, written with an explicit comparison. -/
def ratMin (a b : Rat) : Rat := if ratLe a b then a else b

/-- The smaller of two integers, written with an explicit comparison. -/
def intMin (a b : Int) : Int := if a ≤ b then a else b

/-- Modelled from the spec: `chafa_calc_canvas_geometry`.  A zero source
dimension yields (0, 0).  A negative maximum is treated as unconstrained in
that axis and derived from the other axis and the source aspect ratio
corrected by the font ratio.  With stretch the max box is filled exactly;
without it the aspect-corrected source is fitted inside the box, and without
zoom the result is additionally capped at the natural cell-equivalent size of
the source. -/
def chafa_calc_canvas_geometry (src_width src_height max_w max_h : Int)
    (font_ratio : Rat) (zoom stretch : Bool) : Int × Int :=
  if src_width = 0 ∨ src_height = 0 then (0, 0)
  else
    let half : Rat := mkRat 1 2
    let natW : Rat := intToRat src_width
    let natH : Rat := ratMul (intToRat src_height) font_ratio
    let mW : Rat :=
      if max_w < 0 then
        (if max_h < 0 then natW
         else ratMul (intToRat max_h) (ratDiv natW natH))
      else intToRat max_w
    let mH : Rat :=
      if max_h < 0 then
        (if max_w < 0 then natH
         else ratMul (intToRat max_w) (ratDiv natH natW))
      else intToRat max_h
    if stretch then (ratFloor (ratAdd mW half), ratFloor (ratAdd mH half))
    else
      let scale0 : Rat := ratMin (ratDiv mW natW) (ratDiv mH natH)
      let scale : Rat := if zoom then scale0 else ratMin scale0 (intToRat 1)
      (intMin (ratFloor (ratAdd (ratMul natW scale) half)) (ratFloor mW),
        intMin (ratFloor (ratAdd (ratMul natH scale) half)) (ratFloor mH))

/-- Embeds `calc_canvas_geometry` from src/src/misc.rs: the wrapper declares
two local integers width and height initialized to zero and passes their
addresses as the in-out destination parameters of the C call, so the maxima
seen by the C function are always 0 and 0; the wrapper accepts no maximum
dimensions from the caller. -/
def calc_canvas_geometry (src_width src_height : Int) (font_ratio : Rat)
    (zoom stretch : Bool) : Int × Int :=
  chafa_calc_canvas_geometry src_width src_height 0 0 font_ratio zoom stretch

/- ## TermDb (term/db.rs) -/

/-- Modelled from the spec: the terminal database is a mapping from the value
of a TERM-like environment key to a capability record, together with a blank
record for unknown environments. -/
structure TermDb (σ : Type) where
  entries : List (String × TermInfo σ)

/-- A minimal, empty TermInfo: no sequences, everything inheritable, no
name. -/
def blankTermInfo (σ : Type) : TermInfo σ :=
  { seq := fun _ => Option.none, inherit := fun _ => true, name := Option.none }

/-- Modelled from the spec: find the value of a key in an ordered list of
KEY=VALUE environment entries. -/
def lookupEnv (env : List String) (key : String) : Option String :=
  match env with
  | [] => Option.none
  | e :: rest =>
    if (key ++ "=").isPrefixOf e then some (e.drop (key.length + 1))
    else lookupEnv rest key

/-- Modelled from the spec: `chafa_term_db_detect` selects a best-match
TermInfo from the environment (principally the TERM key); an unknown or
unparseable environment yields the minimal empty TermInfo instead of
failing, so the function is total and never returns NULL. -/
def chafa_term_db_detect {σ : Type} (db : TermDb σ) (env : List String) :
    TermInfo σ :=
  match lookupEnv env "TERM" with
  | Option.none => blankTermInfo σ
  | some t =>
    match db.entries.find? (fun p => p.1 = t) with
    | Option.none => blankTermInfo σ
    | some p => p.2

/-- Modelled from glib: `g_get_environ` returns the process environment and
never returns NULL. -/
def g_get_environ (env : List String) : Option (List String) := some env

/-- Embeds `Db::detect` from src/src/term/db.rs: errors when g_get_environ
returns NULL or when the C detection returns NULL, and otherwise wraps the
detected TermInfo in Ok. -/
def Db.detect {σ : Type} (db : TermDb σ) (env : List String) :
    Except String (TermInfo σ) :=
  match g_get_environ env with
  | Option.none => Except.error "Glib -> Failed to retrieve envp"
  | some envp =>
    let info := chafa_term_db_detect db envp
    Except.ok info

/-- Heap of reference-counted chafa objects, indexed by nonzero pointer
values; a pointer whose count is zero is destroyed. -/
structure Heap where
  refcount : Nat → Nat

/-- Library state for the process-wide default TermDb: the pointer of the
lazily constructed singleton, if any, and the object heap. -/
structure LibState where
  defaultDb : Option Nat
  heap : Heap

/-- Modelled from the spec: `chafa_term_db_get_default` lazily constructs the
process-wide default TermDb once (with a single reference) and thereafter
returns the same pointer without adding a reference; the doc comment of
`Db::default` records that the caller should not unref the returned
object. -/
def chafa_term_db_get_default (st : LibState) : LibState × Nat :=
  match st.defaultDb with
  | some p => (st, p)
  | Option.none =>
    ({ defaultDb := some 1,
       heap := ⟨fun q => if q = 1 then 1 else st.heap.refcount q⟩ }, 1)

/-- Modelled from the spec: dropping a reference decrements the refcount of
the pointed-to object; at zero the object is destroyed. -/
def unrefHeap (h : Heap) (p : Nat) : Heap :=
  ⟨fun q => if q = p then h.refcount p - 1 else h.refcount q⟩

/-- Embeds `Db::default` from src/src/term/db.rs: wraps the pointer returned
by the C singleton accessor, erroring only when it is NULL. -/
def Db.default (st : LibState) : LibState × Except String Nat :=
  let (st2, raw) := chafa_term_db_get_default st
  if raw = 0 then (st2, Except.error "Chafa -> Failed to retrieve default Db")
  else (st2, Except.ok raw)

/-- Embeds the Drop impl for `Db` from src/src/term/db.rs: unconditionally
unrefs the held pointer whenever it is non-null, with no exception for the
process-wide default instance. -/
def Db.drop (st : LibState) (raw : Nat) : LibState :=
  if raw ≠ 0 then { st with heap := unrefHeap st.heap raw } else st

/- ## Canvas cell grid (canvas/imp.rs) -/

/-- One canvas cell: a display character code point (0 marks the right half
of a double-width glyph) and a foreground and background color. -/
structure Cell where
  ch : Nat
  fg : Int
  bg : Int
  deriving DecidableEq, Repr

/-- The C canvas object: a cell grid addressed by (x, y). -/
structure ChafaCanvas where
  width : Int
  height : Int
  cells : Int → Int → Cell

/-- Modelled from the spec: the cell width a code point occupies on the
terminal, 0 for nonprintable or zero-width characters, 2 for wide characters
and 1 otherwise.  The ranges follow the East Asian wide blocks. -/
def char_cell_width (c : Nat) : Nat :=
  if c = 0 ∨ c < 0x20 ∨ (0x7f ≤ c ∧ c ≤ 0x9f) ∨ c = 0x200b ∨
      (0x200c ≤ c ∧ c ≤ 0x200f) then 0
  else if (0x1100 ≤ c ∧ c ≤ 0x115f) ∨ (0x2e80 ≤ c ∧ c ≤ 0x303e) ∨
      (0x3041 ≤ c ∧ c ≤ 0x33ff) ∨ (0x3400 ≤ c ∧ c ≤ 0x4dbf) ∨
      (0x4e00 ≤ c ∧ c ≤ 0x9fff) ∨ (0xac00 ≤ c ∧ c ≤ 0xd7a3) ∨
      (0xf900 ≤ c ∧ c ≤ 0xfaff) ∨ (0xff00 ≤ c ∧ c ≤ 0xff60) ∨
      (0x20000 ≤ c ∧ c ≤ 0x3fffd) then 2
  else 1

/-- Whether (x, y) addresses a cell of the grid. -/
def inBounds (cv : ChafaCanvas) (x y : Int) : Prop :=
  0 ≤ x ∧ x < cv.width ∧ 0 ≤ y ∧ y < cv.height

instance (cv : ChafaCanvas) (x y : Int) : Decidable (inBounds cv x y) := by
  unfold inBounds
  infer_instance

/-- Modelled from the spec: `chafa_canvas_set_char_at`.  A nonprintable or
zero-width character makes no change and reports 0 cells.  A double-width
character occupies two adjacent cells when both fit: the left cell holds the
character, the right cell is forced to code point 0 and mirrors the left
cell colors, and 2 cells are reported.  A narrow character fills one cell.
Out-of-range coordinates make no change. -/
def chafa_canvas_set_char_at (cv : ChafaCanvas) (x y : Int) (c : Nat) :
    ChafaCanvas × Int :=
  if char_cell_width c = 0 then (cv, 0)
  else if ¬ inBounds cv x y then (cv, 0)
  else if char_cell_width c = 2 then
    if x + 1 < cv.width then
      ({ cv with cells := fun i j =>
          if j = y ∧ i = x then
            { ch := c, fg := (cv.cells x y).fg, bg := (cv.cells x y).bg }
          else if j = y ∧ i = x + 1 then
            { ch := 0, fg := (cv.cells x y).fg, bg := (cv.cells x y).bg }
          else cv.cells i j }, 2)
    else (cv, 0)
  else
    ({ cv with cells := fun i j =>
        if j = y ∧ i = x then
          { ch := c, fg := (cv.cells x y).fg, bg := (cv.cells x y).bg }
        else cv.cells i j }, 1)

/-- Modelled from the spec: `chafa_canvas_get_char_at` returns the code point
stored at (x, y); the right half of a double-width glyph reads as 0. -/
def chafa_canvas_get_char_at (cv : ChafaCanvas) (x y : Int) : Nat :=
  if inBounds cv x y then (cv.cells x y).ch else 0

/-- Modelled from the spec: `chafa_canvas_get_colors_at` returns the
foreground and background colors stored at (x, y). -/
def chafa_canvas_get_colors_at (cv : ChafaCanvas) (x y : Int) : Int × Int :=
  if inBounds cv x y then ((cv.cells x y).fg, (cv.cells x y).bg) else (-1, -1)

/-- Embeds `Canvas::set_char_at` from src/src/canvas/imp.rs: forwards the
character and coordinates to the C call and returns the reported cell
count. -/
def Canvas.set_char_at (cv : ChafaCanvas) (c : Nat) (x y : Int) :
    ChafaCanvas × Int :=
  chafa_canvas_set_char_at cv x y c

/-- Embeds `Canvas::get_char_at` from src/src/canvas/imp.rs. -/
def Canvas.get_char_at (cv : ChafaCanvas) (x y : Int) : Nat :=
  chafa_canvas_get_char_at cv x y

/-- Embeds `Canvas::get_colors_at` from src/src/canvas/imp.rs. -/
def Canvas.get_colors_at (cv : ChafaCanvas) (x y : Int) : Int × Int :=
  chafa_canvas_get_colors_at cv x y

/- ## Canvas configuration handle (canvas/imp.rs, canvas/config.rs) -/

/-- The Rust Canvas handle: the raw canvas pointer together with the address
of the configuration object the C canvas privately owns. -/
structure Canvas where
  raw : Nat
  configPtr : Nat

/-- The Rust Config handle: a raw pointer to a ChafaCanvasConfig. -/
structure Config where
  raw : Nat
  deriving DecidableEq, Repr

/-- Modelled from the spec: `chafa_canvas_peek_config` returns a borrowed
pointer to the configuration belonging to the canvas, without creating a copy
or adding a reference. -/
def chafa_canvas_peek_config (cv : Canvas) : Nat := cv.configPtr

/-- Modelled from the spec: `chafa_canvas_config_unref` drops one reference
from a configuration object, destroying it when the count reaches zero. -/
def chafa_canvas_config_unref (h : Heap) (p : Nat) : Heap := unrefHeap h p

/-- Embeds `Canvas::config` from src/src/canvas/imp.rs: wraps the pointer
returned by the peek call directly into a Config handle, erroring only when
it is NULL. -/
def Canvas.config (cv : Canvas) : Except String Config :=
  let raw := chafa_canvas_peek_config cv
  if raw = 0 then Except.error "Chafa -> Failed to retrieve config"
  else Except.ok ⟨raw⟩

/-- Embeds the Drop impl for `Config` from src/src/canvas/config.rs: unrefs
the held pointer whenever it is non-null. -/
def Config.drop (h : Heap) (cfg : Config) : Heap :=
  if cfg.raw ≠ 0 then chafa_canvas_config_unref h cfg.raw else h

/- ## Claim theorems -/

/-- C1: the claim says the geometry calculation takes maximum canvas
dimensions as inputs and that calc_geometry(100, 50, 40, 40, 0.5, false,
false) stays within the 40 by 40 box and within the natural cell size.  The
wrapper exported by the repository has no maximum parameters: it always
passes zeroed in-out maxima to the C call, so it returns (0, 0) for this
source, while the modelled C function called with the maxima 40 and 40
returns (40, 10) as the claim expects. -/
theorem calc_canvas_geometry_drops_maxima :
    calc_canvas_geometry 100 50 (mkRat 1 2) false false = (0, 0) ∧
    chafa_calc_canvas_geometry 100 50 40 40 (mkRat 1 2) false false = (40, 10) := by
  constructor <;> decide

/-- C2: for every symbol map state and selector expression, a parse failure
anywhere in the expression returns an Err carrying a human-readable message
and leaves the map unchanged, and a successful parse returns Ok. -/
theorem apply_selectors_parse_atomicity (m : SymbolMap) (s : String) :
    (∀ e, parseSelectors s = Except.error e →
      (SymbolMap.apply_selectors m s).1 = m ∧
      (SymbolMap.apply_selectors m s).2 =
        Except.error ("Chafa -> Failed to apply selectors: " ++ e)) ∧
    (∀ r, parseSelectors s = Except.ok r →
      (SymbolMap.apply_selectors m s).2 = Except.ok ()) := by
  constructor
  · intro e he
    simp [SymbolMap.apply_selectors, chafa_symbol_map_apply_selectors, he]
  · intro r hr
    obtain ⟨cf, ts⟩ := r
    simp [SymbolMap.apply_selectors, chafa_symbol_map_apply_selectors, hr]

/-- Witness for C2: applying the unknown tag name bogus to an empty map
leaves the map unchanged and produces the prefixed error message. -/
theorem apply_selectors_parse_atomicity_witness :
    (SymbolMap.apply_selectors ⟨[]⟩ "bogus").1 = (⟨[]⟩ : SymbolMap) ∧
    (SymbolMap.apply_selectors ⟨[]⟩ "bogus").2 =
      Except.error ("Chafa -> Failed to apply selectors: " ++
        "unrecognized tag name bogus") :=
  (apply_selectors_parse_atomicity ⟨[]⟩ "bogus").1 "unrecognized tag name bogus" rfl

/-- C3 counterexample: the claim states that for an inheritable kind the
chained result is absent only when both sides are absent.  With an outer
that lacks the sequence and an inner that has it and marks it inheritable,
the merge rules of the source pick the outer sequence, so the result is
absent although the inner value is present. -/
theorem chain_inheritable_absent_counterexample :
    ¬ (∀ (σ : Type) (outer inner : TermInfo σ) (k : σ),
        inner.inherit k = true →
        ((chafa_term_info_chain outer inner).seq k = Option.none ↔
          (outer.seq k = Option.none ∧ inner.seq k = Option.none))) := by
  intro h
  have h2 := h Unit (blankTermInfo Unit)
    { seq := fun _ => some "i", inherit := fun _ => true, name := Option.none } () rfl
  simp [chafa_term_info_chain, blankTermInfo] at h2

/-- C3 amended: for an inheritable kind the chained result is the outer
value whenever either side is absent (hence absent whenever the outer value
is absent) and the inner value when both are present; a non-inheritable kind
always takes the inner value; and chaining with an inner that has no
sequences and marks everything inheritable equals the outer record on every
sequence kind. -/
theorem chain_seq_merge_amended {σ : Type} (outer inner : TermInfo σ) (k : σ) :
    (inner.inherit k = true →
      ((inner.seq k = Option.none ∨ outer.seq k = Option.none) →
        (chafa_term_info_chain outer inner).seq k = outer.seq k) ∧
      (∀ a b, inner.seq k = some a → outer.seq k = some b →
        (chafa_term_info_chain outer inner).seq k = some a)) ∧
    (inner.inherit k = false →
      (chafa_term_info_chain outer inner).seq k = inner.seq k) ∧
    ((∀ j, inner.seq j = Option.none) → (∀ j, inner.inherit j = true) →
      ∀ j, (chafa_term_info_chain outer inner).seq j = outer.seq j) := by
  refine ⟨fun hi => ⟨fun habs => ?_, fun a b ha hb => ?_⟩, fun hni => ?_,
    fun hs hi j => ?_⟩
  · simp [chafa_term_info_chain, hi, habs]
  · simp [chafa_term_info_chain, hi, ha, hb]
  · simp [chafa_term_info_chain, hni]
  · simp [chafa_term_info_chain, hi j, hs j]

/-- Witness for C3: chaining an outer that holds a sequence with an empty
fully inheritable inner yields the outer value. -/
theorem chain_seq_merge_amended_witness :
    (chafa_term_info_chain
      { seq := fun _ => some "o", inherit := fun _ => true, name := Option.none }
      (blankTermInfo Unit)).seq () = some "o" :=
  ((chain_seq_merge_amended
      { seq := fun _ => some "o", inherit := fun _ => true, name := Option.none }
      (blankTermInfo Unit) ()).1 rfl).1 (Or.inl rfl)

/-- C4: for every TermInfo, sequence kind and template string, if the
template fails to parse or its worst-case expansion exceeds
CHAFA_TERM_SEQ_LENGTH_MAX bytes, the assignment returns an error and the
stored record is left untouched; the ceiling is checked in set_seq itself,
at assignment time. -/
theorem set_seq_worst_case_ceiling {σ : Type} [DecidableEq σ]
    (info : TermInfo σ) (k : σ) (tmpl : String)
    (h : (∃ e, parseTemplate tmpl.data = Except.error e) ∨
      (∃ items, parseTemplate tmpl.data = Except.ok items ∧
        worstCaseLen items > CHAFA_TERM_SEQ_LENGTH_MAX)) :
    (chafa_term_info_set_seq info k (some tmpl)).1 = info ∧
    ∃ msg, (chafa_term_info_set_seq info k (some tmpl)).2 = Except.error msg := by
  rcases h with ⟨e, he⟩ | ⟨items, hi, hlen⟩
  · constructor
    · simp [chafa_term_info_set_seq, he]
    · exact ⟨e, by simp [chafa_term_info_set_seq, he]⟩
  · constructor
    · simp [chafa_term_info_set_seq, hi, hlen]
    · exact ⟨"sequence too long", by simp [chafa_term_info_set_seq, hi, hlen]⟩

/-- Witness for C4: a template of 97 literal bytes parses but its worst-case
expansion exceeds the 96-byte ceiling, so the assignment is rejected and the
blank record is unchanged. -/
theorem set_seq_worst_case_ceiling_witness :
    (chafa_term_info_set_seq (blankTermInfo Unit) ()
      (some (String.mk (List.replicate 97 'a')))).1 = blankTermInfo Unit ∧
    ∃ msg, (chafa_term_info_set_seq (blankTermInfo Unit) ()
      (some (String.mk (List.replicate 97 'a')))).2 = Except.error msg :=
  set_seq_worst_case_ceiling (blankTermInfo Unit) ()
    (String.mk (List.replicate 97 'a'))
    (Or.inr ⟨List.replicate 97 (TemplateItem.lit 'a'), rfl, by decide⟩)

/-- C5: for every database and environment snapshot, detection returns a
TermInfo and is never an error; unknown environments degrade to the minimal
empty record inside the Ok value. -/
theorem detect_never_errors {σ : Type} (db : TermDb σ) (env : List String) :
    Db.detect db env = Except.ok (chafa_term_db_detect db env) ∧
    ∀ msg, Db.detect db env ≠ Except.error msg := by
  constructor
  · rfl
  · intro msg h
    simp [Db.detect, g_get_environ] at h

/-- Witness for C5: detection over an empty database and a one-entry
environment yields an Ok TermInfo. -/
theorem detect_never_errors_witness :
    Db.detect (⟨[]⟩ : TermDb Unit) ["TERM=foo"] =
      Except.ok (chafa_term_db_detect (⟨[]⟩ : TermDb Unit) ["TERM=foo"]) :=
  (detect_never_errors (⟨[]⟩ : TermDb Unit) ["TERM=foo"]).1

/-- C6 counterexample: the claim states that set_name and set_seq complete
with Ok or Err for every string, including strings with interior NUL bytes.
Both convert the argument with CString::new followed by expect, which panics
on an interior NUL, modelled as Option.none; so neither completes on the
one-byte NUL string and the universal claim is false. -/
theorem set_name_set_seq_nul_panic_counterexample :
    Info.set_name (blankTermInfo Unit) (String.mk [Char.ofNat 0]) = Option.none ∧
    Info.set_seq (blankTermInfo Unit) () (some (String.mk [Char.ofNat 0])) =
      Option.none ∧
    ¬ (∀ s : String, (Info.set_name (blankTermInfo Unit) s).isSome = true) := by
  refine ⟨rfl, rfl, fun h => ?_⟩
  have h2 := h (String.mk [Char.ofNat 0])
  simp [Info.set_name, cstring_new] at h2

/-- C6 amended: for every string free of interior NUL bytes, set_name and
set_seq complete without panicking, surfacing their outcome as a value. -/
theorem set_name_set_seq_no_nul_amended {σ : Type} [DecidableEq σ]
    (info : TermInfo σ) (name : String) (k : σ) (tmpl : Option String)
    (hn : name.data.any (fun c => c.toNat = 0) = false)
    (ht : ∀ s, tmpl = some s → s.data.any (fun c => c.toNat = 0) = false) :
    (Info.set_name info name).isSome = true ∧
    (Info.set_seq info k tmpl).isSome = true := by
  constructor
  · simp [Info.set_name, cstring_new, hn]
  · match tmpl with
    | Option.none => rfl
    | some s =>
      have hs := ht s rfl
      simp only [Info.set_seq, cstring_new, hs]
      simp only [Bool.false_eq_true, if_false]
      rcases h2 : chafa_term_info_set_seq info k (some s) with ⟨i2, r⟩
      cases r <;> simp

/-- Witness for C6: NUL-free arguments complete on the blank record. -/
theorem set_name_set_seq_no_nul_amended_witness :
    (Info.set_name (blankTermInfo Unit) "xterm").isSome = true ∧
    (Info.set_seq (blankTermInfo Unit) () (some "[0m")).isSome = true :=
  set_name_set_seq_no_nul_amended (blankTermInfo Unit) "xterm" () (some "[0m")
    (by decide) (fun s hs => by cases hs; decide)

/-- C7: whenever set_char_at reports 2 cells affected, the adjacent right
cell reads back code point 0 and its colors equal the left cell colors. -/
theorem set_char_at_double_width_invariant (cv : ChafaCanvas) (c : Nat)
    (x y : Int) (h : (Canvas.set_char_at cv c x y).2 = 2) :
    Canvas.get_char_at (Canvas.set_char_at cv c x y).1 (x + 1) y = 0 ∧
    Canvas.get_colors_at (Canvas.set_char_at cv c x y).1 (x + 1) y =
      Canvas.get_colors_at (Canvas.set_char_at cv c x y).1 x y := by
  unfold Canvas.set_char_at at h ⊢
  unfold Canvas.get_char_at Canvas.get_colors_at
  unfold chafa_canvas_set_char_at at h ⊢
  by_cases h0 : char_cell_width c = 0
  · rw [if_pos h0] at h
    simp at h
  rw [if_neg h0] at h ⊢
  by_cases hb : inBounds cv x y
  case neg =>
    rw [if_pos hb] at h
    simp at h
  rw [if_neg (not_not_intro hb)] at h ⊢
  by_cases h2 : char_cell_width c = 2
  case neg =>
    rw [if_neg h2] at h
    simp at h
  rw [if_pos h2] at h ⊢
  by_cases hfit : x + 1 < cv.width
  case neg =>
    rw [if_neg hfit] at h
    simp at h
  rw [if_pos hfit] at h ⊢
  obtain ⟨hx0, hxw, hy0, hyh⟩ := hb
  have hx1 : ¬ (x + 1 = x) := by omega
  have hx01 : (0 : Int) ≤ x + 1 := by omega
  simp [chafa_canvas_get_char_at, chafa_canvas_get_colors_at, inBounds,
    hx1, hx0, hxw, hy0, hyh, hfit, hx01]

/-- Witness for C7: a CJK wide character set at the left cell of a 2 by 1
canvas reports 2 cells, stores 0 at the right cell and mirrors the left
cell colors there. -/
theorem set_char_at_double_width_invariant_witness :
    (Canvas.set_char_at ⟨2, 1, fun _ _ => ⟨65, 3, 4⟩⟩ 0x4e00 0 0).2 = 2 ∧
    Canvas.get_char_at
      (Canvas.set_char_at ⟨2, 1, fun _ _ => ⟨65, 3, 4⟩⟩ 0x4e00 0 0).1 (0 + 1) 0 = 0 ∧
    Canvas.get_colors_at
      (Canvas.set_char_at ⟨2, 1, fun _ _ => ⟨65, 3, 4⟩⟩ 0x4e00 0 0).1 (0 + 1) 0 =
    Canvas.get_colors_at
      (Canvas.set_char_at ⟨2, 1, fun _ _ => ⟨65, 3, 4⟩⟩ 0x4e00 0 0).1 0 0 :=
  ⟨rfl, (set_char_at_double_width_invariant ⟨2, 1, fun _ _ => ⟨65, 3, 4⟩⟩
      0x4e00 0 0 rfl).1,
    (set_char_at_double_width_invariant ⟨2, 1, fun _ _ => ⟨65, 3, 4⟩⟩
      0x4e00 0 0 rfl).2⟩

/-- C8: a zero source width or height yields (0, 0) regardless of the
remaining parameters, both for the modelled C function with arbitrary
maxima and for the exported wrapper. -/
theorem calc_geometry_zero_source (src_w src_h max_w max_h : Int) (fr : Rat)
    (z s : Bool) (h : src_w = 0 ∨ src_h = 0) :
    chafa_calc_canvas_geometry src_w src_h max_w max_h fr z s = (0, 0) ∧
    calc_canvas_geometry src_w src_h fr z s = (0, 0) := by
  unfold calc_canvas_geometry chafa_calc_canvas_geometry
  simp [h]

/-- Witness for C8: a zero source width with maxima 40 and 40 yields
(0, 0) in both forms. -/
theorem calc_geometry_zero_source_witness :
    chafa_calc_canvas_geometry 0 50 40 40 (mkRat 1 2) false false = (0, 0) ∧
    calc_canvas_geometry 0 50 (mkRat 1 2) false false = (0, 0) :=
  calc_geometry_zero_source 0 50 40 40 (mkRat 1 2) false false (Or.inl rfl)

/-- C9: the claim says nothing releases the process-wide default TermDb
after construction and a Db obtained from default() stays valid after being
dropped.  Running the code from a fresh state shows otherwise: default()
builds the singleton with one reference, dropping the returned Db unrefs it
to zero (the destroy point), and a second default() hands back the same
pointer whose count is still zero, a destroyed instance. -/
theorem db_default_drop_releases_global :
    ((Db.default ⟨Option.none, ⟨fun _ => 0⟩⟩).2 = Except.ok 1) ∧
    ((Db.default ⟨Option.none, ⟨fun _ => 0⟩⟩).1.heap.refcount 1 = 1) ∧
    ((Db.drop (Db.default ⟨Option.none, ⟨fun _ => 0⟩⟩).1 1).heap.refcount 1 = 0) ∧
    ((Db.default (Db.drop (Db.default ⟨Option.none, ⟨fun _ => 0⟩⟩).1 1)).2 =
      Except.ok 1) ∧
    ((Db.default
        (Db.drop (Db.default ⟨Option.none, ⟨fun _ => 0⟩⟩).1 1)).1.heap.refcount 1
      = 0) :=
  ⟨rfl, rfl, rfl, rfl, rfl⟩

/-- C10: the Config returned by Canvas::config wraps exactly the canvas
internal configuration pointer with no copy, dropping it performs the same
unref a caller-created Config drop performs, and when the internal copy
holds its last reference that drop destroys it while the canvas still holds
the pointer. -/
theorem canvas_config_aliases_internal (cv : Canvas) (h : Heap)
    (hne : cv.configPtr ≠ 0) :
    Canvas.config cv = Except.ok ⟨cv.configPtr⟩ ∧
    (∀ cfg : Config, cfg.raw = cv.configPtr →
      Config.drop h cfg = chafa_canvas_config_unref h cv.configPtr) ∧
    (h.refcount cv.configPtr = 1 →
      (Config.drop h ⟨cv.configPtr⟩).refcount cv.configPtr = 0) := by
  refine ⟨?_, fun cfg hcfg => ?_, fun h1 => ?_⟩
  · simp [Canvas.config, chafa_canvas_peek_config, hne]
  · simp [Config.drop, hcfg, hne]
  · simp [Config.drop, chafa_canvas_config_unref, unrefHeap, hne, h1]

/-- Witness for C10: a canvas whose internal configuration sits at address 7
with a single reference; config() aliases it and dropping the returned
handle destroys it. -/
theorem canvas_config_aliases_internal_witness :
    Canvas.config ⟨5, 7⟩ = Except.ok ⟨7⟩ ∧
    ((⟨fun p => if p = 7 then 1 else 0⟩ : Heap).refcount 7 = 1 →
      (Config.drop ⟨fun p => if p = 7 then 1 else 0⟩ ⟨7⟩).refcount 7 = 0) :=
  ⟨(canvas_config_aliases_internal ⟨5, 7⟩ ⟨fun p => if p = 7 then 1 else 0⟩
      (by decide)).1,
    (canvas_config_aliases_internal ⟨5, 7⟩ ⟨fun p => if p = 7 then 1 else 0⟩
      (by decide)).2.2⟩
